import Mathlib

/-!
# Verification of the staged analysis pipeline in `DeepfakeDetector.tsx`

Shallow embedding of `src/src/components/DeepfakeDetector.tsx`.
The component keeps its state in `useState` slots and runs a fixed
six-stage simulated analysis loop (`simulateMLProcessing`).  Random draws
from `Math.random()` are modelled by explicit rational parameters in
`[0,1)`; JavaScript numbers are modelled by `ℚ` (every numeric literal in
the source is an exact decimal).  `String.startsWith` is modelled on the
underlying character list so that concrete instances evaluate.
-/

/-- One entry of the `stages` array in `simulateMLProcessing`
(lines 76–83): a stage name and its `setTimeout` duration in
milliseconds. -/
structure StageSpec where
  name : String
  duration : Nat
deriving DecidableEq, Repr

/-- The hard-coded stage list of `simulateMLProcessing` (lines 76–83). -/
def stages : List StageSpec :=
  [⟨"Loading video frames", 800⟩,
   ⟨"Face detection & extraction", 1200⟩,
   ⟨"Temporal consistency analysis", 1000⟩,
   ⟨"Artifact detection", 900⟩,
   ⟨"Neural network inference", 1100⟩,
   ⟨"Final classification", 600⟩]

/-- The progress value written by `setProgress(((i + 1) / stages.length) * 100)`
(line 87), for a pipeline of `n` stages after stage `i` completes. -/
def progressAt (n i : Nat) : ℚ := ((i : ℚ) + 1) / (n : ℚ) * 100

/-- Observable actions of one pass of the run loop (lines 85–88): stage `i`
is dispatched (its `setTimeout` is issued), stage `i` settles (the awaited
promise resolves), and the progress update for stage `i` is published. -/
inductive RunAction where
  | stageStart (i : Nat) (name : String)
  | stageSettle (i : Nat)
  | progressUpdate (i : Nat) (p : ℚ)
deriving DecidableEq, Repr

/-- The trace of the `for` loop of lines 85–88 over the remaining stage
list, where `n` is the full pipeline length and `i` the index of the next
stage: each iteration awaits stage `i`'s timer and then publishes exactly
one progress update before the next iteration begins. -/
def traceFrom (n : Nat) : Nat → List StageSpec → List RunAction
  | _, [] => []
  | i, st :: rest =>
      .stageStart i st.name :: .stageSettle i ::
        .progressUpdate i (progressAt n i) :: traceFrom n (i + 1) rest

/-- The full trace of the run loop (lines 85–88) on a stage list. -/
def runTrace (sts : List StageSpec) : List RunAction :=
  traceFrom sts.length 0 sts

/-- The stage index carried by a progress update, if the action is one. -/
def progressIndex : RunAction → Option Nat
  | .progressUpdate i _ => some i
  | _ => none

/-- The percentage carried by a progress update, if the action is one. -/
def progressValue : RunAction → Option ℚ
  | .progressUpdate _ p => some p
  | _ => none

/-- The sequence of progress percentages published by the run loop. -/
def progressSeq (sts : List StageSpec) : List ℚ :=
  (runTrace sts).filterMap progressValue

/-- All progress percentages a run of `simulateMLProcessing` reports, in
order: the `setProgress(0)` of line 73 followed by the loop's updates
(line 87) on the hard-coded pipeline. -/
def reportedProgress : List ℚ := 0 :: progressSeq stages

/-- The five `Math.random()` draws made while building `mockResult`
(lines 91–100), in source order. `Math.random()` returns a number in
`[0, 1)`; the draws are modelled as rational parameters. -/
structure RandomDraws where
  r0 : ℚ
  r1 : ℚ
  r2 : ℚ
  r3 : ℚ
  r4 : ℚ
deriving DecidableEq, Repr

/-- All five draws lie in `[0, 1)`, the contract of `Math.random()`. -/
def drawsInRange (ρ : RandomDraws) : Prop :=
  (0 ≤ ρ.r0 ∧ ρ.r0 < 1) ∧ (0 ≤ ρ.r1 ∧ ρ.r1 < 1) ∧ (0 ≤ ρ.r2 ∧ ρ.r2 < 1) ∧
    (0 ≤ ρ.r3 ∧ ρ.r3 < 1) ∧ (0 ≤ ρ.r4 ∧ ρ.r4 < 1)

/-- The `DetectionResult` interface (lines 9–18), with the three
`details` sub-scores inlined as fields. -/
structure DetectionResult where
  isDeepfake : Bool
  confidence : ℚ
  processingTime : ℚ
  faceAnalysis : ℚ
  temporalConsistency : ℚ
  artifactDetection : ℚ
deriving DecidableEq, Repr

/-- The `mockResult` built at lines 91–100, as a function of the five
`Math.random()` draws: `isDeepfake = Math.random() > 0.6`,
`confidence = 0.75 + Math.random() * 0.24`, `processingTime = 4.6`, and the
three sub-scores `0.82 + r*0.17`, `0.78 + r*0.21`, `0.73 + r*0.26`. -/
def mockResult (ρ : RandomDraws) : DetectionResult where
  isDeepfake := decide (ρ.r0 > 6/10)
  confidence := 75/100 + ρ.r1 * (24/100)
  processingTime := 46/10
  faceAnalysis := 82/100 + ρ.r2 * (17/100)
  temporalConsistency := 78/100 + ρ.r3 * (21/100)
  artifactDetection := 73/100 + ρ.r4 * (26/100)

/-- A selected file as the component sees it: the fields of the DOM `File`
object that the source reads (`name`, `type`, `size`). -/
structure FileData where
  name : String
  type : String
  size : Nat
deriving DecidableEq, Repr

/-- `file.type.startsWith('video/')` (line 33), modelled on the underlying
character list of the media-type string. -/
def isVideoType (f : FileData) : Bool :=
  "video/".toList.isPrefixOf f.type.toList

/-- The component's `useState` slots (lines 21–26), plus the list of toast
titles shown so far (the `useToast` side channel, modelled as an
append-only log). -/
structure ComponentState where
  selectedFile : Option FileData
  isProcessing : Bool
  progress : ℚ
  result : Option DetectionResult
  videoUrl : Option String
  isPlaying : Bool
  toasts : List String
deriving DecidableEq, Repr

/-- `URL.createObjectURL(file)` (line 47), modelled as an opaque
file-determined URL string. -/
def objectUrl (f : FileData) : String := "blob:" ++ f.name

/-- `handleFileSelect` (lines 32–54): a non-video media type shows the
"Invalid File Type" toast and returns with no state change; a video file
is stored, the previous result is cleared, progress is reset to 0, a
preview URL is created, and the "Video Loaded" toast is shown. -/
def handleFileSelect (s : ComponentState) (f : FileData) : ComponentState :=
  if isVideoType f then
    { s with selectedFile := some f
             result := none
             progress := 0
             videoUrl := some (objectUrl f)
             toasts := s.toasts ++ ["Video Loaded"] }
  else
    { s with toasts := s.toasts ++ ["Invalid File Type"] }

/-- `simulateMLProcessing` (lines 71–110), from an arbitrary starting
state: sets `isProcessing` and `progress := 0`, runs the six-stage loop of
lines 85–88 (returned as its action trace), then stores `mockResult`,
clears `isProcessing` and shows the "Analysis Complete" toast.  The
function performs no state check and has no failure path: it runs the full
loop regardless of the starting state. -/
def simulateMLProcessing (s : ComponentState) (ρ : RandomDraws) :
    ComponentState × List RunAction :=
  ({ s with isProcessing := false
            progress := progressAt stages.length (stages.length - 1)
            result := some (mockResult ρ)
            toasts := s.toasts ++ ["Analysis Complete"] },
   runTrace stages)

/-- The `disabled={isProcessing}` attribute of the Start Detection button
(line 252): the only guard against starting a second run. -/
def startButtonDisabled (s : ComponentState) : Bool := s.isProcessing

/-- The run loop of `simulateMLProcessing` with a cancellation request
pending from stage `k` onwards.  The source loop (lines 85–88) consults no
cancellation flag and the component defines no cancel operation, so the
request parameter is never read: the trace is that of the plain loop. -/
def runTraceWithCancelRequest (_k : Nat) (sts : List StageSpec) :
    List RunAction :=
  runTrace sts

/-- Error raised, per the specification, by pipeline construction on a
malformed stage list. -/
inductive PipelineError where
  | invalidPipeline
deriving DecidableEq, Repr

/-- Pipeline construction as the source performs it: the stage list is
built by a plain array literal (lines 76–83) with no validation of any
kind, so construction accepts every stage list and never fails. -/
def constructPipeline (sts : List StageSpec) :
    Except PipelineError (List StageSpec) :=
  Except.ok sts

/-- Modelled from the spec: a stage list is invalid when it is empty,
contains a non-positive weight (the stage's duration), or contains two
stages sharing a name.  Used only to compare the spec's validation rule
with the source's construction. -/
def specStagesInvalid (sts : List StageSpec) : Bool :=
  sts.isEmpty || sts.any (fun st => st.duration = 0) ||
    !(sts.map (fun st => st.name)).Nodup

/-- Modelled from the spec: weight-normalized progress after `k` completed
stages, `100 * completedWeight / totalWeight`, with a stage's duration as
its weight.  Used only to compare the spec's normalization with the
source's count-based one. -/
def specWeightProgress (sts : List StageSpec) (k : Nat) : ℚ :=
  100 * (((sts.take k).map (fun st => (st.duration : ℚ))).sum) /
    ((sts.map (fun st => (st.duration : ℚ))).sum)

/-! ## Structure of the run-loop trace -/

/-- Position key of an action: the trace of a run lists every action of
stage `i` at positions `3*i`, `3*i + 1`, `3*i + 2`. -/
def actionKey : RunAction → Nat
  | .stageStart i _ => 3 * i
  | .stageSettle i => 3 * i + 1
  | .progressUpdate i _ => 3 * i + 2

theorem range'_cons3 (a m : Nat) :
    List.range' a (m + 3) = a :: (a + 1) :: (a + 2) :: List.range' (a + 3) m := by
  rw [show m + 3 = (m + 2) + 1 from rfl, List.range'_succ,
    show m + 2 = (m + 1) + 1 from rfl, List.range'_succ, List.range'_succ]

theorem traceFrom_map_actionKey (n : Nat) (sts : List StageSpec) :
    ∀ i, (traceFrom n i sts).map actionKey = List.range' (3 * i) (3 * sts.length) := by
  induction sts with
  | nil => intro i; simp [traceFrom]
  | cons st rest ih =>
      intro i
      have hlen : 3 * (st :: rest).length = 3 * rest.length + 3 := by
        simp [List.length_cons]; ring
      rw [hlen, range'_cons3]
      simp only [traceFrom, List.map_cons, actionKey]
      rw [ih (i + 1), show 3 * (i + 1) = 3 * i + 3 by ring]

theorem traceFrom_filterMap_progressIndex (n : Nat) (sts : List StageSpec) :
    ∀ i, (traceFrom n i sts).filterMap progressIndex = List.range' i sts.length := by
  induction sts with
  | nil => intro i; simp [traceFrom]
  | cons st rest ih =>
      intro i
      rw [show (st :: rest).length = rest.length + 1 from rfl, List.range'_succ]
      simp only [traceFrom, List.filterMap_cons, progressIndex]
      rw [ih (i + 1)]

theorem traceFrom_filterMap_progressValue (n : Nat) (sts : List StageSpec) :
    ∀ i, (traceFrom n i sts).filterMap progressValue
      = (List.range' i sts.length).map (progressAt n) := by
  induction sts with
  | nil => intro i; simp [traceFrom]
  | cons st rest ih =>
      intro i
      rw [show (st :: rest).length = rest.length + 1 from rfl, List.range'_succ]
      simp only [traceFrom, List.filterMap_cons, progressValue]
      rw [ih (i + 1)]
      simp [List.map_cons]

theorem runTrace_map_actionKey (sts : List StageSpec) :
    (runTrace sts).map actionKey = List.range (3 * sts.length) := by
  rw [runTrace, traceFrom_map_actionKey, List.range_eq_range']

theorem runTrace_filterMap_progressIndex (sts : List StageSpec) :
    (runTrace sts).filterMap progressIndex = List.range sts.length := by
  rw [runTrace, traceFrom_filterMap_progressIndex, List.range_eq_range']

theorem progressSeq_eq (sts : List StageSpec) :
    progressSeq sts = (List.range sts.length).map (progressAt sts.length) := by
  rw [progressSeq, runTrace, traceFrom_filterMap_progressValue, List.range_eq_range']

/-- Each position of the run trace holds the action whose key equals that
position: the trace is laid out strictly in stage-and-phase order. -/
theorem runTrace_pos_eq_key (sts : List StageSpec) (a : Nat) (x : RunAction)
    (h : (runTrace sts)[a]? = some x) : a = actionKey x := by
  have hm : ((runTrace sts).map actionKey)[a]? = some (actionKey x) := by
    rw [List.getElem?_map, h]; rfl
  rw [runTrace_map_actionKey] at hm
  have ha : a < 3 * sts.length := by
    by_contra hc
    rw [List.getElem?_eq_none (by simpa using Nat.le_of_not_lt hc)] at hm
    exact Option.noConfusion hm
  rw [List.getElem?_range ha] at hm
  exact Option.some_inj.mp hm

/-! ## Concrete states used as witnesses -/

/-- The component's initial state: all `useState` initializers
(lines 21–26). -/
def initialState : ComponentState where
  selectedFile := none
  isProcessing := false
  progress := 0
  result := none
  videoUrl := none
  isPlaying := false
  toasts := []

/-- A sample vector of `Math.random()` draws, all `0.5`. -/
def sampleDraws : RandomDraws := ⟨1/2, 1/2, 1/2, 1/2, 1/2⟩

/-- The reported progress sequence of a run, evaluated on the hard-coded
pipeline. -/
theorem reportedProgress_eval :
    reportedProgress = [0, 50/3, 100/3, 50, 200/3, 250/3, 100] := by
  norm_num [reportedProgress, progressSeq, runTrace, traceFrom, progressAt,
    stages, List.filterMap, progressValue]

/-! ## Claims -/

/-- C1: for every run of the pipeline, the reported progress percentages
(the initial 0 followed by the loop's six updates) form a non-decreasing
sequence; the sequence ends at exactly 100 if and only if the run succeeds
(every run of `simulateMLProcessing` produces a result); and 100 appears
only at the final position, never before and never skipped. -/
theorem C1_progress_monotone_100_iff_success (s : ComponentState)
    (ρ : RandomDraws) :
    List.Chain' (· ≤ ·) reportedProgress ∧
    (reportedProgress.getLast? = some 100 ↔
      (simulateMLProcessing s ρ).1.result.isSome = true) ∧
    (∀ i, i < reportedProgress.length →
      (reportedProgress[i]? = some 100 ↔ i = reportedProgress.length - 1)) := by
  rw [reportedProgress_eval]
  refine ⟨?_, ?_, ?_⟩
  · simp [List.chain'_cons]
    norm_num
  · simp [simulateMLProcessing, List.getLast?]
  · intro i hi
    simp only [List.length_cons, List.length_nil] at hi
    interval_cases i <;> simp <;> norm_num

/-- Witness for C1 at the initial state and sample draws: position 6 is
the final one and is exactly 100. -/
theorem C1_witness :
    6 < reportedProgress.length ∧
    (reportedProgress[6]? = some 100 ↔ 6 = reportedProgress.length - 1) :=
  ⟨by rw [reportedProgress_eval]; norm_num,
   (C1_progress_monotone_100_iff_success initialState sampleDraws).2.2 6
     (by rw [reportedProgress_eval]; norm_num)⟩

/-- C2 fails on the code: the loop reports `((i + 1) / stages.length) * 100`
(line 87), normalized by stage count.  After the first stage of the
hard-coded pipeline the reported percentage is `100 · 1/6 = 50/3 ≈ 16.7`,
while the weight-normalized formula of the claim gives
`100 · 800/5600 = 100/7 ≈ 14.3` for the stage durations as weights. -/
theorem C2_counterexample :
    (progressSeq stages)[0]? = some (progressAt 6 0) ∧
    progressAt 6 0 ≠ specWeightProgress stages 1 := by
  constructor
  · norm_num [progressSeq, runTrace, traceFrom, stages, List.filterMap,
      progressValue]
  · norm_num [progressAt, specWeightProgress, stages]

/-- C2 amended: the `i`-th progress event of a run reports
`100 * (i + 1) / n` where `n` is the number of stages — progress is
normalized by stage count, not by stage weight. -/
theorem C2_progress_count_normalized (sts : List StageSpec) (i : Nat)
    (h : i < sts.length) :
    (progressSeq sts)[i]? = some (((i : ℚ) + 1) / (sts.length : ℚ) * 100) := by
  rw [progressSeq_eq, List.getElem?_map, List.getElem?_range h]
  rfl

/-- Witness for C2's amended claim at the hard-coded pipeline, stage 0. -/
theorem C2_witness :
    0 < stages.length ∧
    (progressSeq stages)[0]? =
      some (((0 : ℚ) + 1) / ((stages.length : ℚ)) * 100) :=
  ⟨by norm_num [stages],
   C2_progress_count_normalized stages 0 (by norm_num [stages])⟩

/-- C3: stage execution is strictly sequential and emits exactly one
progress event per completed stage: the progress events of a run are
exactly one per stage, carrying stage indices `0, …, n-1` in order, and
stage `i + 1` is dispatched only at a trace position strictly after the
position where stage `i` settles. -/
theorem C3_sequential_one_event_per_stage (sts : List StageSpec) :
    (runTrace sts).filterMap progressIndex = List.range sts.length ∧
    (∀ (a b i : Nat) (nm : String),
      (runTrace sts)[a]? = some (RunAction.stageSettle i) →
      (runTrace sts)[b]? = some (RunAction.stageStart (i + 1) nm) → a < b) := by
  refine ⟨runTrace_filterMap_progressIndex sts, ?_⟩
  intro a b i nm ha hb
  have hka := runTrace_pos_eq_key sts a _ ha
  have hkb := runTrace_pos_eq_key sts b _ hb
  simp only [actionKey] at hka hkb
  omega

/-- Witness for C3 on the hard-coded pipeline: stage 0 settles at trace
position 1, stage 1 starts at trace position 3, and 1 < 3. -/
theorem C3_witness :
    ((runTrace stages)[1]? = some (RunAction.stageSettle 0) ∧
      (runTrace stages)[3]? =
        some (RunAction.stageStart 1 "Face detection & extraction")) ∧
    (1 : Nat) < 3 :=
  ⟨⟨rfl, rfl⟩,
   (C3_sequential_one_event_per_stage stages).2 1 3 0
     "Face detection & extraction" rfl rfl⟩

/-- A sample video file. -/
def sampleVideo : FileData := ⟨"clip.mp4", "video/mp4", 1024⟩

/-- A state in which a run is already in flight. -/
def runningState : ComponentState :=
  { initialState with selectedFile := some sampleVideo, isProcessing := true }

/-- C4 fails on the code: at draws `(0.5, 0, 0.5, 0.5, 0.5)` the result's
confidence is `0.75`, not the mean `53/60 ≈ 0.883` of its three
sub-scores; and the draws `(0.5, …)` and `(0.7, …)` yield identical
sub-scores but opposite classifications, so the decision is not a function
of the sub-scores at all. -/
theorem C4_counterexample :
    (mockResult ⟨1/2, 0, 1/2, 1/2, 1/2⟩).confidence ≠
      ((mockResult ⟨1/2, 0, 1/2, 1/2, 1/2⟩).faceAnalysis +
        (mockResult ⟨1/2, 0, 1/2, 1/2, 1/2⟩).temporalConsistency +
        (mockResult ⟨1/2, 0, 1/2, 1/2, 1/2⟩).artifactDetection) / 3 ∧
    ((mockResult ⟨1/2, 0, 1/2, 1/2, 1/2⟩).faceAnalysis =
        (mockResult ⟨7/10, 0, 1/2, 1/2, 1/2⟩).faceAnalysis ∧
      (mockResult ⟨1/2, 0, 1/2, 1/2, 1/2⟩).temporalConsistency =
        (mockResult ⟨7/10, 0, 1/2, 1/2, 1/2⟩).temporalConsistency ∧
      (mockResult ⟨1/2, 0, 1/2, 1/2, 1/2⟩).artifactDetection =
        (mockResult ⟨7/10, 0, 1/2, 1/2, 1/2⟩).artifactDetection) ∧
    (mockResult ⟨1/2, 0, 1/2, 1/2, 1/2⟩).isDeepfake ≠
      (mockResult ⟨7/10, 0, 1/2, 1/2, 1/2⟩).isDeepfake := by
  refine ⟨?_, ⟨rfl, rfl, rfl⟩, ?_⟩
  · norm_num [mockResult]
  · simp only [mockResult, ne_eq]
    norm_num

/-- C4 amended: the classification and the confidence of `mockResult` are
functions of two fresh independent `Math.random()` draws alone — the
classification is true exactly when the first draw exceeds 0.6 and the
confidence is `0.75 + 0.24` times the second — neither depends on the
contributed sub-scores. -/
theorem C4_classification_random_not_score_mean (ρ ρ' : RandomDraws)
    (h0 : ρ.r0 = ρ'.r0) (h1 : ρ.r1 = ρ'.r1) :
    (mockResult ρ).isDeepfake = (mockResult ρ').isDeepfake ∧
    (mockResult ρ).confidence = (mockResult ρ').confidence ∧
    ((mockResult ρ).isDeepfake = true ↔ ρ.r0 > 6/10) := by
  simp [mockResult, h0, h1]

/-- Witness for C4's amended claim at the sample draws. -/
theorem C4_witness :
    (mockResult sampleDraws).isDeepfake = (mockResult sampleDraws).isDeepfake ∧
    (mockResult sampleDraws).confidence = (mockResult sampleDraws).confidence ∧
    ((mockResult sampleDraws).isDeepfake = true ↔ sampleDraws.r0 > 6/10) :=
  C4_classification_random_not_score_mean sampleDraws sampleDraws rfl rfl

/-- C5 fails on the code: no `AlreadyStartedError` exists.  From a state
that is already processing, invoking `simulateMLProcessing` does not fail:
it performs a full second execution, emitting all six progress events and
storing a fresh result (the only guard in the source is the disabled
Start button). -/
theorem C5_counterexample :
    startButtonDisabled runningState = true ∧
    ((simulateMLProcessing runningState sampleDraws).2.filterMap
        progressIndex).length = 6 ∧
    (simulateMLProcessing runningState sampleDraws).1.result =
      some (mockResult sampleDraws) := by
  refine ⟨rfl, ?_, rfl⟩
  show ((runTrace stages).filterMap progressIndex).length = 6
  rw [runTrace_filterMap_progressIndex]
  rfl

/-- C5 amended: the only guard against a second start is the UI — the
Start Detection button is disabled exactly while `isProcessing` — and
`simulateMLProcessing` itself checks nothing: from any state it runs all
stages of the pipeline and stores a result, never raising an error. -/
theorem C5_second_start_only_blocked_by_disabled_button
    (s : ComponentState) (ρ : RandomDraws) :
    (startButtonDisabled s = true ↔ s.isProcessing = true) ∧
    ((simulateMLProcessing s ρ).2.filterMap progressIndex).length
      = stages.length ∧
    (simulateMLProcessing s ρ).1.result = some (mockResult ρ) := by
  refine ⟨Iff.rfl, ?_, rfl⟩
  show ((runTrace stages).filterMap progressIndex).length = stages.length
  rw [runTrace_filterMap_progressIndex, List.length_range]

/-- C6 fails on the code: the run loop consults no cancellation flag, so a
cancellation request pending during stage 1 of the six-stage pipeline does
not stop the run — six progress events are emitted, not one, and the run
still completes with a result instead of transitioning to a cancelled
state. -/
theorem C6_counterexample :
    ((runTraceWithCancelRequest 1 stages).filterMap progressIndex).length = 6 ∧
    ((runTraceWithCancelRequest 1 stages).filterMap progressIndex).length ≠ 1 ∧
    (simulateMLProcessing initialState sampleDraws).1.result.isSome = true := by
  have h : ((runTraceWithCancelRequest 1 stages).filterMap
      progressIndex).length = 6 := by
    rw [runTraceWithCancelRequest, runTrace_filterMap_progressIndex]
    rfl
  exact ⟨h, by rw [h]; decide, rfl⟩

/-- C6 amended: the component defines no cancel operation and the run loop
never consults a cancellation request: a request pending during any stage
of any pipeline leaves the run trace unchanged, so every stage settles and
exactly `n` progress events are emitted. -/
theorem C6_cancellation_has_no_effect (k : Nat) (sts : List StageSpec) :
    runTraceWithCancelRequest k sts = runTrace sts ∧
    ((runTraceWithCancelRequest k sts).filterMap progressIndex).length
      = sts.length := by
  refine ⟨rfl, ?_⟩
  rw [runTraceWithCancelRequest, runTrace_filterMap_progressIndex,
    List.length_range]

/-- C7 fails on the code: pipeline construction performs no validation —
the empty stage list, invalid per the spec, is accepted without error. -/
theorem C7_counterexample :
    constructPipeline ([] : List StageSpec) = Except.ok [] ∧
    specStagesInvalid [] = true :=
  ⟨rfl, rfl⟩

/-- C7 amended: pipeline construction in the source is a plain array
literal: it accepts every stage list and never raises
`InvalidPipelineError`; separately, the one hard-coded pipeline does
satisfy the spec's invariants (non-empty, positive durations, unique
names). -/
theorem C7_construction_performs_no_validation (sts : List StageSpec) :
    constructPipeline sts = Except.ok sts ∧
    specStagesInvalid stages = false := by
  refine ⟨rfl, ?_⟩
  simp [specStagesInvalid, stages]

/-- A state displaying the outputs of an earlier completed run. -/
def displayedState : ComponentState :=
  { initialState with
      selectedFile := some sampleVideo
      progress := 100
      result := some (mockResult sampleDraws)
      videoUrl := some (objectUrl sampleVideo) }

/-- A sample non-video file. -/
def sampleImage : FileData := ⟨"pic.png", "image/png", 2048⟩

/-- C8: every `DetectionResult` produced by a successful run satisfies the
numeric bounds, given the `Math.random()` contract (draws in `[0,1)`):
confidence lies in `[0,1]`, each of the three sub-scores lies in `[0,1]`,
and the elapsed time is non-negative. -/
theorem C8_result_bounds (s : ComponentState) (ρ : RandomDraws)
    (h : drawsInRange ρ) (r : DetectionResult)
    (hr : (simulateMLProcessing s ρ).1.result = some r) :
    (0 ≤ r.confidence ∧ r.confidence ≤ 1) ∧
    (0 ≤ r.faceAnalysis ∧ r.faceAnalysis ≤ 1) ∧
    (0 ≤ r.temporalConsistency ∧ r.temporalConsistency ≤ 1) ∧
    (0 ≤ r.artifactDetection ∧ r.artifactDetection ≤ 1) ∧
    0 ≤ r.processingTime := by
  obtain ⟨h0, h1, h2, h3, h4⟩ := h
  have hr' : mockResult ρ = r := by
    simpa [simulateMLProcessing] using hr
  subst hr'
  simp only [mockResult]
  refine ⟨⟨?_, ?_⟩, ⟨?_, ?_⟩, ⟨?_, ?_⟩, ⟨?_, ?_⟩, ?_⟩ <;> linarith
    [h1.1, h1.2, h2.1, h2.2, h3.1, h3.2, h4.1, h4.2]

/-- Witness for C8 at the sample draws. -/
theorem C8_witness :
    drawsInRange sampleDraws ∧
    ((0 ≤ (mockResult sampleDraws).confidence ∧
        (mockResult sampleDraws).confidence ≤ 1) ∧
      (0 ≤ (mockResult sampleDraws).faceAnalysis ∧
        (mockResult sampleDraws).faceAnalysis ≤ 1) ∧
      (0 ≤ (mockResult sampleDraws).temporalConsistency ∧
        (mockResult sampleDraws).temporalConsistency ≤ 1) ∧
      (0 ≤ (mockResult sampleDraws).artifactDetection ∧
        (mockResult sampleDraws).artifactDetection ≤ 1) ∧
      0 ≤ (mockResult sampleDraws).processingTime) :=
  ⟨by norm_num [drawsInRange, sampleDraws],
   C8_result_bounds initialState sampleDraws
     (by norm_num [drawsInRange, sampleDraws]) (mockResult sampleDraws) rfl⟩

/-- C9: selecting a valid video file clears the previous run's outputs:
after `handleFileSelect` accepts the file, the stored result is `none`,
the progress value is 0, and the accepted file is the selected one. -/
theorem C9_new_file_clears_previous_outputs (s : ComponentState)
    (f : FileData) (h : isVideoType f = true) :
    (handleFileSelect s f).result = none ∧
    (handleFileSelect s f).progress = 0 ∧
    (handleFileSelect s f).selectedFile = some f := by
  simp [handleFileSelect, h]

/-- Witness for C9: selecting the sample video over a displayed result. -/
theorem C9_witness :
    isVideoType sampleVideo = true ∧
    ((handleFileSelect displayedState sampleVideo).result = none ∧
      (handleFileSelect displayedState sampleVideo).progress = 0 ∧
      (handleFileSelect displayedState sampleVideo).selectedFile =
        some sampleVideo) :=
  ⟨by decide,
   C9_new_file_clears_previous_outputs displayedState sampleVideo (by decide)⟩

/-- C10: rejecting a non-video file is atomic: `handleFileSelect` on a
file whose media type does not start with `video/` leaves `selectedFile`,
`result`, `progress` and `videoUrl` at their prior values. -/
theorem C10_invalid_file_changes_no_state (s : ComponentState)
    (f : FileData) (h : isVideoType f = false) :
    (handleFileSelect s f).selectedFile = s.selectedFile ∧
    (handleFileSelect s f).result = s.result ∧
    (handleFileSelect s f).progress = s.progress ∧
    (handleFileSelect s f).videoUrl = s.videoUrl := by
  simp [handleFileSelect, h]

/-- Witness for C10: rejecting the sample image over a displayed result. -/
theorem C10_witness :
    isVideoType sampleImage = false ∧
    ((handleFileSelect displayedState sampleImage).selectedFile =
        displayedState.selectedFile ∧
      (handleFileSelect displayedState sampleImage).result =
        displayedState.result ∧
      (handleFileSelect displayedState sampleImage).progress =
        displayedState.progress ∧
      (handleFileSelect displayedState sampleImage).videoUrl =
        displayedState.videoUrl) :=
  ⟨by decide,
   C10_invalid_file_changes_no_state displayedState sampleImage (by decide)⟩
